import Mathlib

/-!
Verification of the Google Drive document-conversion module
(backend/onyx/connectors/google_drive/doc_conversion.py).

The Python module is shallowly embedded: external collaborators (the Drive
service, the Sheets API, byte decoders, the structured Google-Doc extractor,
the timestamp parser) are modelled as oracles returning `Except Exn`, and
exceptions are modelled as explicit `Except.error` values.  A Python
`try/except` becomes a `match` on the `Except` value of the protected body.
-/

/-- Embedded Python exception values.  `httpError` mirrors
googleapiclient `HttpError` with its `status_code`, `reason` and
`error_details` fields; `other` covers every remaining exception class. -/
structure ErrorDetail where
  reason : String
  message : String
deriving DecidableEq, Repr

inductive Exn where
  | httpError (statusCode : Nat) (reason : String) (errorDetails : List ErrorDetail)
  | valueError (msg : String)
  | indexError
  | other (msg : String)
deriving DecidableEq, Repr

/-- Whether an embedded exception is an instance of the HttpError class
(what a Python `except HttpError` clause catches). -/
def Exn.isHttpError : Exn → Bool
  | .httpError _ _ _ => true
  | _ => false

/-- Modelled from the spec: the MIME-type constants of the GDriveMimeType
enumeration (onyx/connectors/google_drive/models.py is not part of the
sources).  The exact strings are irrelevant to every claim; only their
distinctness and membership in the supported set matter. -/
def GDriveMimeType.DOC : String := "application/vnd.google-apps.document"

def GDriveMimeType.SPREADSHEET : String := "application/vnd.google-apps.spreadsheet"

def GDriveMimeType.SPREADSHEET_OPEN_FORMAT : String := "application/vnd.oasis.opendocument.spreadsheet"

def GDriveMimeType.SPREADSHEET_MS_EXCEL : String := "application/vnd.ms-excel"

def GDriveMimeType.PDF : String := "application/pdf"

def GDriveMimeType.WORD_DOC : String := "application/vnd.openxmlformats-officedocument.wordprocessingml.document"

def GDriveMimeType.PPT : String := "application/vnd.google-apps.presentation"

def GDriveMimeType.POWERPOINT : String := "application/vnd.openxmlformats-officedocument.presentationml.presentation"

def GDriveMimeType.PLAIN_TEXT : String := "text/plain"

def GDriveMimeType.MARKDOWN : String := "text/markdown"

/-- The supported set: `set(item.value for item in GDriveMimeType)`. -/
def supportedMimeTypes : List String :=
  [GDriveMimeType.DOC, GDriveMimeType.SPREADSHEET,
   GDriveMimeType.SPREADSHEET_OPEN_FORMAT, GDriveMimeType.SPREADSHEET_MS_EXCEL,
   GDriveMimeType.PDF, GDriveMimeType.WORD_DOC, GDriveMimeType.PPT,
   GDriveMimeType.POWERPOINT, GDriveMimeType.PLAIN_TEXT, GDriveMimeType.MARKDOWN]

/-- Modelled from the spec: folder MIME type constant
(onyx/connectors/google_drive/constants.py is not part of the sources). -/
def DRIVE_FOLDER_TYPE : String := "application/vnd.google-apps.folder"

/-- Modelled from the spec: shortcut MIME type constant. -/
def DRIVE_SHORTCUT_TYPE : String := "application/vnd.google-apps.shortcut"

/-- Modelled from the spec: the fixed sentinel text substituted when real
content cannot be extracted.  Its exact value decides no claim. -/
def UNSUPPORTED_FILE_TYPE_CONTENT : String := "Unsupported file type"

/-- Modelled from the spec: the metadata key flagging a document to be
indexed for presence only. -/
def IGNORE_FOR_QA : String := "ignore_for_qa"

/-- The whitelisted benign transport-error reasons (module constant
ERRORS_TO_CONTINUE_ON). -/
def ERRORS_TO_CONTINUE_ON : List String :=
  ["cannotExportFile", "exportSizeLimitExceeded", "cannotDownloadFile"]

/-- One owner entry of a file descriptor; `emailAddress` may be absent
(Python dict `.get`). -/
structure Owner where
  emailAddress : Option String
deriving DecidableEq, Repr

/-- A Drive file descriptor, with the keys the module reads.  The keys the
code accesses by subscription (`file[...]`) are required fields, matching
the data-model guarantee that a FileDescriptor carries id, name, MIME type
and view link; keys read only through `.get` with a default are `Option`. -/
structure DriveFile where
  id : String
  name : String
  mimeType : String
  webViewLink : String
  modifiedTime : String
  driveId : Option String
  permissions : Option (List String)
  permissionIds : Option (List String)
  owners : Option (List Owner)
deriving DecidableEq, Repr

/-- A (link, text) section. -/
structure Section where
  link : String
  text : String
deriving DecidableEq, Repr

/-- Sheet grid properties; `rowCount` and `columnCount` may be absent. -/
structure GridProperties where
  rowCount : Option Nat
  columnCount : Option Nat
deriving DecidableEq, Repr

structure SheetProperties where
  title : String
  sheetId : Nat
  gridProperties : Option GridProperties
deriving DecidableEq, Repr

structure Sheet where
  properties : SheetProperties
deriving DecidableEq, Repr

/-- The response of the spreadsheet metadata call. -/
structure Spreadsheet where
  sheets : List Sheet
deriving DecidableEq, Repr

/-- The response of a values fetch; the "values" key may be absent. -/
structure ValuesResult where
  values : Option (List (List String))
deriving DecidableEq, Repr

/-- Raw bytes, abstracted. -/
abbrev Bytes := List Nat

/-- An openpyxl worksheet: title plus the rows of `iter_rows` with
`str` applied to every cell. -/
structure Worksheet where
  title : String
  rows : List (List String)
deriving DecidableEq, Repr

structure Workbook where
  worksheets : List Worksheet
deriving DecidableEq, Repr

/-- The Drive service oracle: each call site of the external client is one
field whose `Except` result says whether that call returned or raised.
`getSpreadsheet` folds the `build("sheets", "v4", ...)` construction and
the metadata `.get(spreadsheetId).execute()` call; `getValues` takes the
spreadsheet id and range expression; `exportAs` takes the file id and the
export MIME type. -/
structure GoogleDriveService where
  getSpreadsheet : String → Except Exn Spreadsheet
  getValues : String → String → Except Exn ValuesResult
  getMedia : String → Except Exn Bytes
  exportAs : String → String → Except Exn Bytes

/-- The Docs service oracle: the structured Google-Doc section extractor
(onyx/connectors/google_drive/section_extraction.py, an external
collaborator per the spec). -/
structure GoogleDocsService where
  getDocumentSections : String → Except Exn (List Section)

/-- Library oracle: pure-looking external helpers.  `decodeUtf8` models
`bytes.decode("utf-8")`; `loadWorkbook` models the temporary file plus
`openpyxl.load_workbook`; the decoders model docx_to_text, read_pdf_file,
pptx_to_text and unstructured_to_text; `parseIsoToUtc` models
`datetime.fromisoformat(...).astimezone(timezone.utc)`. -/
structure Lib where
  decodeUtf8 : Bytes → Except Exn String
  loadWorkbook : Bytes → Except Exn Workbook
  unstructuredApiKey : Option String
  unstructuredToText : Bytes → String → String
  docxToText : Bytes → String
  pdfToText : Bytes → String
  pptxToText : Bytes → String
  parseIsoToUtc : String → Except Exn Int

/-- The column-count-to-letter loop of the Sheets branch, with explicit
fuel so that the embedding is structurally recursive (the counter strictly
decreases each iteration, so a fuel equal to the starting counter always
suffices; `colLetter_succ` below proves the fuel is irrelevant):
`while column_count: column_count, remainder = divmod(column_count - 1, 26);
end_column = chr(65 + remainder) + end_column`. -/
def colLetterAux : Nat → Nat → String
  | _, 0 => ""
  | 0, _ + 1 => ""
  | fuel + 1, n + 1 => colLetterAux fuel (n / 26) ++ (Char.ofNat (65 + n % 26)).toString

def colLetter (n : Nat) : String := colLetterAux n n

/-- The range expression `f"'{sheet_name}'!A1:{end_column}{row_count}"`,
with the row/column extent defaulting to 1000 by 26. -/
def sheetRange (sheet : Sheet) : String :=
  let gp := sheet.properties.gridProperties.getD { rowCount := none, columnCount := none }
  let rowCount := gp.rowCount.getD 1000
  let columnCount := gp.columnCount.getD 26
  "\x27" ++ sheet.properties.title ++ "\x27!A1:" ++ colLetter columnCount ++ toString rowCount

/-- The text built for one non-empty sheet: a `Sheet: <name>` header line,
then each row's cells joined by tabs and terminated by a newline. -/
def sheetText (title : String) (values : List (List String)) : String :=
  "Sheet: " ++ title ++ "\n" ++
    String.join (values.map (fun row => String.intercalate "\t" row ++ "\n"))

/-- The section emitted for one non-empty sheet: link with the
`#gid=<sheetId>` anchor fragment and the sheet text. -/
def sheetSection (link : String) (sheet : Sheet) (values : List (List String)) : Section :=
  { link := link ++ "#gid=" ++ toString sheet.properties.sheetId,
    text := sheetText sheet.properties.title values }

/-- The per-sheet loop of the Sheets branch: fetch each sheet's values;
a sheet with no values contributes nothing; an HttpError on the fetch is
caught and that sheet skipped; any other exception escapes the loop. -/
def sheetsLoop (svc : GoogleDriveService) (fileId link : String) :
    List Sheet → Except Exn (List Section)
  | [] => .ok []
  | sheet :: rest =>
    match svc.getValues fileId (sheetRange sheet) with
    | .ok result =>
      let values := result.values.getD []
      if values.isEmpty then
        sheetsLoop svc fileId link rest
      else
        match sheetsLoop svc fileId link rest with
        | .ok tail => .ok (sheetSection link sheet values :: tail)
        | .error e => .error e
    | .error e =>
      if e.isHttpError then sheetsLoop svc fileId link rest else .error e

/-- The whole native-Sheets attempt (lines 58-110): metadata call, then the
per-sheet loop; an `Except.error` here is an exception escaping the inner
`try`, caught at line 112 by falling through to the export block. -/
def sheetsAttempt (file : DriveFile) (svc : GoogleDriveService) : Except Exn (List Section) :=
  match svc.getSpreadsheet file.id with
  | .ok spreadsheet => sheetsLoop svc file.id file.webViewLink spreadsheet.sheets
  | .error e => .error e

/-- The per-worksheet sections of the Excel branch: header line, then the
non-empty rows rendered as comma-joined cells, separated by blank lines. -/
def excelSections (link : String) (workbook : Workbook) : List Section :=
  workbook.worksheets.map (fun (ws : Worksheet) =>
    { link := link,
      text := "Sheet: " ++ ws.title ++ "\n\n" ++
        String.intercalate "\n\n"
          ((ws.rows.filter (fun (row : List String) => ¬ row.isEmpty)).map
            (String.intercalate ",")) })

/-- The Excel branch (lines 123-160): fetch raw bytes, parse as a workbook,
emit one section per worksheet; its own `except Exception` converts any
failure into the single Excel error sentinel, so the branch never raises. -/
def excelBranch (file : DriveFile) (svc : GoogleDriveService) (lib : Lib) :
    Except Exn (List Section) :=
  match svc.getMedia file.id with
  | .error _ =>
    .ok [{ link := file.webViewLink, text := "Error extracting data from Excel file" }]
  | .ok bytes =>
    match lib.loadWorkbook bytes with
    | .error _ =>
      .ok [{ link := file.webViewLink, text := "Error extracting data from Excel file" }]
    | .ok workbook => .ok (excelSections file.webViewLink workbook)

/-- Lines 164-232: the export block for Docs, presentations and the
spreadsheet fallback, the plain-text/markdown block, the Word/PowerPoint/PDF
block, and the catch-all `raise ValueError`. -/
def afterSheetsBlock (file : DriveFile) (svc : GoogleDriveService) (lib : Lib) :
    Except Exn (List Section) :=
  let mimeType := file.mimeType
  let link := file.webViewLink
  if mimeType = GDriveMimeType.DOC ∨ mimeType = GDriveMimeType.PPT ∨
      mimeType = GDriveMimeType.SPREADSHEET then
    let exportMimeType :=
      if mimeType ≠ GDriveMimeType.SPREADSHEET then "text/plain" else "text/csv"
    match svc.exportAs file.id exportMimeType with
    | .error e => .error e
    | .ok bytes =>
      match lib.decodeUtf8 bytes with
      | .error e => .error e
      | .ok text => .ok [{ link := link, text := text }]
  else if mimeType = GDriveMimeType.PLAIN_TEXT ∨ mimeType = GDriveMimeType.MARKDOWN then
    match svc.getMedia file.id with
    | .error e => .error e
    | .ok bytes =>
      match lib.decodeUtf8 bytes with
      | .error e => .error e
      | .ok text => .ok [{ link := link, text := text }]
  else if mimeType = GDriveMimeType.WORD_DOC ∨ mimeType = GDriveMimeType.POWERPOINT ∨
      mimeType = GDriveMimeType.PDF then
    match svc.getMedia file.id with
    | .error e => .error e
    | .ok bytes =>
      match lib.unstructuredApiKey with
      | some _ =>
        .ok [{ link := link, text := lib.unstructuredToText bytes file.name }]
      | none =>
        if mimeType = GDriveMimeType.WORD_DOC then
          .ok [{ link := link, text := lib.docxToText bytes }]
        else if mimeType = GDriveMimeType.PDF then
          .ok [{ link := link, text := lib.pdfToText bytes }]
        else if mimeType = GDriveMimeType.POWERPOINT then
          .ok [{ link := link, text := lib.pptxToText bytes }]
        else
          .error (Exn.valueError ("Unsupported file type: " ++ mimeType))
  else
    .error (Exn.valueError ("Unsupported file type: " ++ mimeType))

/-- The body of the outer `try` (lines 54-232, steps 2-7 of the spec): the
Sheets branch with fall-through to the export block on whole-operation
failure, the Excel branch, and the remaining strategy blocks. -/
def extractAttempt (file : DriveFile) (svc : GoogleDriveService) (lib : Lib) :
    Except Exn (List Section) :=
  if file.mimeType = GDriveMimeType.SPREADSHEET then
    match sheetsAttempt file svc with
    | .ok sections => .ok sections
    | .error _ => afterSheetsBlock file svc lib
  else if file.mimeType = GDriveMimeType.SPREADSHEET_OPEN_FORMAT ∨
      file.mimeType = GDriveMimeType.SPREADSHEET_MS_EXCEL then
    excelBranch file svc lib
  else
    afterSheetsBlock file svc lib

/-- The Section Extractor `_extract_sections_basic`: unsupported MIME types
yield the single sentinel section; otherwise run the strategies, and the
outer `except Exception` (lines 234-235) converts any escaping exception
into the single sentinel section. -/
def extract_sections_basic (file : DriveFile) (svc : GoogleDriveService) (lib : Lib) :
    Except Exn (List Section) :=
  if ¬ supportedMimeTypes.contains file.mimeType then
    .ok [{ link := file.webViewLink, text := UNSUPPORTED_FILE_TYPE_CONTENT }]
  else
    match extractAttempt file svc lib with
    | .ok sections => .ok sections
    | .error _ =>
      .ok [{ link := file.webViewLink, text := UNSUPPORTED_FILE_TYPE_CONTENT }]

/-- A document source tag; only the Drive tag occurs here. -/
inductive DocumentSource where
  | google_drive
deriving DecidableEq, Repr

/-- The normalized document record built by the assembler. -/
structure Document where
  id : String
  sections : List Section
  source : DocumentSource
  semantic_identifier : String
  doc_updated_at : Int
  metadata : List (String × String)
  additional_info : Option String
deriving DecidableEq, Repr

/-- The reason the assembler's HttpError handler reads:
`e.error_details[0]["reason"] if e.error_details else e.reason`. -/
def httpErrorReason (reason : String) (errorDetails : List ErrorDetail) : String :=
  match errorDetails with
  | [] => reason
  | d :: _ => d.reason

/-- The Google-Doc structured path (lines 257-264): on the native document
MIME type attempt `get_document_sections`; any failure is logged and leaves
the section list empty, falling through to basic extraction. -/
def gdocSections (docsSvc : GoogleDocsService) (file : DriveFile) : List Section :=
  if file.mimeType = GDriveMimeType.DOC then
    match docsSvc.getDocumentSections file.id with
    | .ok sections => sections
    | .error _ => []
  else []

/-- The body of the assembler's top-level `try` (lines 244-296): shortcut
and folder rejection, the structured Google-Doc path, the generic extractor
guarded by the HttpError handler with the benign-reason whitelist, the
empty-section drop, and Document construction.  `Except.ok none` is the
Python `return None`; `Except.error` is an exception reaching the top-level
boundary. -/
def convertBody (file : DriveFile) (driveSvc : GoogleDriveService)
    (docsSvc : GoogleDocsService) (lib : Lib) : Except Exn (Option Document) :=
  if file.mimeType = DRIVE_SHORTCUT_TYPE then .ok none
  else if file.mimeType = DRIVE_FOLDER_TYPE then .ok none
  else
    let sections0 := gdocSections docsSvc file
    let fetched : Except Exn (Option (List Section)) :=
      if sections0.isEmpty then
        match extract_sections_basic file driveSvc lib with
        | .ok sections => .ok (some sections)
        | .error (Exn.httpError statusCode reason errorDetails) =>
          if statusCode = 403 ∧
              ERRORS_TO_CONTINUE_ON.contains (httpErrorReason reason errorDetails) then
            .ok none
          else
            .error (Exn.httpError statusCode reason errorDetails)
        | .error e => .error e
      else .ok (some sections0)
    match fetched with
    | .error e => .error e
    | .ok none => .ok none
    | .ok (some sections) =>
      if sections.isEmpty then .ok none
      else
        match lib.parseIsoToUtc file.modifiedTime with
        | .error e => .error e
        | .ok updatedAt =>
          .ok (some
            { id := file.webViewLink,
              sections := sections,
              source := DocumentSource.google_drive,
              semantic_identifier := file.name,
              doc_updated_at := updatedAt,
              metadata :=
                if sections.any (fun s => s.text ≠ "") then []
                else [(IGNORE_FOR_QA, "True")],
              additional_info := some file.id })

/-- The Document Assembler `convert_drive_item_to_document`, with the
global CONTINUE_ON_CONNECTOR_FAILURE flag as an explicit parameter: the
top-level boundary (lines 297-302) swallows any escaping exception when the
flag is set and re-raises it when it is not. -/
def convert_drive_item_to_document (continueOnFailure : Bool) (file : DriveFile)
    (driveSvc : GoogleDriveService) (docsSvc : GoogleDocsService) (lib : Lib) :
    Except Exn (Option Document) :=
  match convertBody file driveSvc docsSvc lib with
  | .ok result => .ok result
  | .error e => if continueOnFailure then .ok none else .error e

/-- The permission-sync projection record. -/
structure PermSyncData where
  doc_id : Option String
  drive_id : Option String
  permissions : List String
  permission_ids : List String
  name : Option String
  owner_email : Option String
deriving DecidableEq, Repr

structure SlimDocument where
  id : String
  perm_sync_data : PermSyncData
deriving DecidableEq, Repr

/-- The slim-record projection `build_slim_document` (lines 305-320):
folders and shortcuts yield nothing; otherwise project the permission
fields.  `file.get("owners", [{}])[0]` indexes the first element of the
owners list when the key is present (raising IndexError when that list is
empty) and of the one-empty-dict default when it is absent. -/
def build_slim_document (file : DriveFile) : Except Exn (Option SlimDocument) :=
  if file.mimeType = DRIVE_FOLDER_TYPE ∨ file.mimeType = DRIVE_SHORTCUT_TYPE then
    .ok none
  else
    match file.owners.getD [{ emailAddress := none }] with
    | [] => .error Exn.indexError
    | firstOwner :: _ =>
      .ok (some
        { id := file.webViewLink,
          perm_sync_data :=
            { doc_id := some file.id,
              drive_id := file.driveId,
              permissions := file.permissions.getD [],
              permission_ids := file.permissionIds.getD [],
              name := some file.name,
              owner_email := firstOwner.emailAddress } })

/-- A service whose every call raises a generic (non-HttpError) exception. -/
def noopDriveService : GoogleDriveService :=
  { getSpreadsheet := fun _ => .error (.other "unavailable"),
    getValues := fun _ _ => .error (.other "unavailable"),
    getMedia := fun _ => .error (.other "unavailable"),
    exportAs := fun _ _ => .error (.other "unavailable") }

/-- A Docs service whose structured extractor always raises. -/
def noopDocsService : GoogleDocsService :=
  { getDocumentSections := fun _ => .error (.other "unavailable") }

/-- A benign library oracle for concrete witnesses. -/
def sampleLib : Lib :=
  { decodeUtf8 := fun _ => .ok "decoded text",
    loadWorkbook := fun _ => .error (.other "not a workbook"),
    unstructuredApiKey := none,
    unstructuredToText := fun _ _ => "unstructured text",
    docxToText := fun _ => "docx text",
    pdfToText := fun _ => "pdf text",
    pptxToText := fun _ => "pptx text",
    parseIsoToUtc := fun _ => .ok 1704067200 }

/-- A concrete file descriptor with the given MIME type. -/
def sampleFile (mimeType : String) : DriveFile :=
  { id := "file-1", name := "Example", mimeType := mimeType,
    webViewLink := "https://drive.example/view",
    modifiedTime := "2024-01-01T00:00:00+00:00",
    driveId := none, permissions := none, permissionIds := none, owners := none }

theorem colLetterAux_zero (fuel : Nat) : colLetterAux fuel 0 = "" := by
  cases fuel <;> rfl

theorem colLetterAux_fuel_irrelevant :
    ∀ fuelA fuelB n : Nat, n ≤ fuelA → n ≤ fuelB →
      colLetterAux fuelA n = colLetterAux fuelB n := by
  intro fuelA
  induction fuelA with
  | zero =>
    intro fuelB n hA _
    have hn : n = 0 := Nat.le_zero.mp hA
    subst hn
    rw [colLetterAux_zero, colLetterAux_zero]
  | succ f ih =>
    intro fuelB n hA hB
    cases n with
    | zero => rw [colLetterAux_zero, colLetterAux_zero]
    | succ m =>
      cases fuelB with
      | zero => exact absurd hB (by omega)
      | succ g =>
        show colLetterAux f (m / 26) ++ _ = colLetterAux g (m / 26) ++ _
        have hf : m / 26 ≤ f :=
          le_trans (Nat.div_le_self m 26) (Nat.le_of_succ_le_succ hA)
        have hg : m / 26 ≤ g :=
          le_trans (Nat.div_le_self m 26) (Nat.le_of_succ_le_succ hB)
        rw [ih g (m / 26) hf hg]

/-- One iteration of the conversion loop, stated over `colLetter` itself. -/
theorem colLetter_succ (n : Nat) :
    colLetter (n + 1) = colLetter (n / 26) ++ (Char.ofNat (65 + n % 26)).toString := by
  show colLetterAux (n + 1) (n + 1) = colLetterAux (n / 26) (n / 26) ++ _
  show colLetterAux n (n / 26) ++ _ = colLetterAux (n / 26) (n / 26) ++ _
  rw [colLetterAux_fuel_irrelevant n (n / 26) (n / 26) (Nat.div_le_self n 26) (Nat.le_refl _)]

/-- Claim C7: the column-count-to-letter conversion used for the Sheets
range expression is the standard bijective base-26 conversion: the sample
inputs 1, 26, 27, 52, 702, 703 produce A, Z, AA, AZ, ZZ, AAA, and in
general one iteration prepends the letter at index (n-1) mod 26 and
continues with (n-1) div 26. -/
theorem colLetter_is_bijective_base26 :
    (colLetter 1 = "A" ∧ colLetter 26 = "Z" ∧ colLetter 27 = "AA" ∧
     colLetter 52 = "AZ" ∧ colLetter 702 = "ZZ" ∧ colLetter 703 = "AAA") ∧
    (∀ n : Nat, colLetter (n + 1) =
      colLetter (n / 26) ++ (Char.ofNat (65 + n % 26)).toString) :=
  ⟨⟨by decide, by decide, by decide, by decide, by decide, by decide⟩, colLetter_succ⟩

/-- The Section Extractor returns normally on every input. -/
theorem extract_sections_basic_isOk (file : DriveFile) (svc : GoogleDriveService)
    (lib : Lib) : ∃ sections, extract_sections_basic file svc lib = .ok sections := by
  unfold extract_sections_basic
  split
  · exact ⟨_, rfl⟩
  · cases h : extractAttempt file svc lib with
    | ok sections => exact ⟨sections, rfl⟩
    | error e => exact ⟨_, rfl⟩

/-- Claim C1: for every file descriptor and drive service, the Section
Extractor never propagates an exception to its caller: it always returns a
section list, and whenever an exception escapes the strategy body (the
outer try of lines 54-232), the result is the single sentinel section
carrying the file view link. -/
theorem extract_sections_basic_never_raises (file : DriveFile)
    (svc : GoogleDriveService) (lib : Lib) :
    (∃ sections, extract_sections_basic file svc lib = .ok sections) ∧
    (∀ e, extractAttempt file svc lib = .error e →
      extract_sections_basic file svc lib =
        .ok [{ link := file.webViewLink, text := UNSUPPORTED_FILE_TYPE_CONTENT }]) := by
  constructor
  · exact extract_sections_basic_isOk file svc lib
  · intro e he
    unfold extract_sections_basic
    split
    · rfl
    · rw [he]

/-- Witness for C1: a native-spreadsheet file on a service whose metadata
call and export both raise generic exceptions; the strategy body raises and
the extractor returns the sentinel section. -/
theorem extract_sections_basic_never_raises_witness :
    extractAttempt (sampleFile GDriveMimeType.SPREADSHEET) noopDriveService sampleLib =
      .error (.other "unavailable") ∧
    extract_sections_basic (sampleFile GDriveMimeType.SPREADSHEET) noopDriveService
        sampleLib =
      .ok [{ link := "https://drive.example/view", text := UNSUPPORTED_FILE_TYPE_CONTENT }] :=
  ⟨by rfl,
    (extract_sections_basic_never_raises (sampleFile GDriveMimeType.SPREADSHEET)
      noopDriveService sampleLib).2 (.other "unavailable") (by rfl)⟩

/-- Claim C8: every file whose MIME type is outside the supported set
yields exactly one section with the fixed sentinel text and the file view
link. -/
theorem unsupported_mime_single_sentinel (file : DriveFile)
    (svc : GoogleDriveService) (lib : Lib)
    (h : ¬ supportedMimeTypes.contains file.mimeType) :
    extract_sections_basic file svc lib =
      .ok [{ link := file.webViewLink, text := UNSUPPORTED_FILE_TYPE_CONTENT }] := by
  unfold extract_sections_basic
  rw [if_pos h]

/-- Witness for C8: a PNG image is outside the supported set and yields
the single sentinel section. -/
theorem unsupported_mime_single_sentinel_witness :
    ¬ supportedMimeTypes.contains (sampleFile "image/png").mimeType ∧
    extract_sections_basic (sampleFile "image/png") noopDriveService sampleLib =
      .ok [{ link := "https://drive.example/view", text := UNSUPPORTED_FILE_TYPE_CONTENT }] :=
  ⟨by decide,
    unsupported_mime_single_sentinel (sampleFile "image/png") noopDriveService sampleLib
      (by decide)⟩

/-- Claim C9: for every non-folder, non-shortcut file descriptor with no
owners list, the slim projection returns a SlimDocument whose owner-email
entry is absent, without raising. -/
theorem build_slim_document_no_owners (file : DriveFile)
    (hf : file.mimeType ≠ DRIVE_FOLDER_TYPE)
    (hs : file.mimeType ≠ DRIVE_SHORTCUT_TYPE)
    (ho : file.owners = none) :
    ∃ slim, build_slim_document file = .ok (some slim) ∧
      slim.perm_sync_data.owner_email = none := by
  unfold build_slim_document
  rw [if_neg (not_or.mpr ⟨hf, hs⟩), ho]
  exact ⟨_, rfl, rfl⟩

/-- Witness for C9: a plain-text file with no owners key. -/
theorem build_slim_document_no_owners_witness :
    (sampleFile "text/plain").mimeType ≠ DRIVE_FOLDER_TYPE ∧
    (sampleFile "text/plain").mimeType ≠ DRIVE_SHORTCUT_TYPE ∧
    (sampleFile "text/plain").owners = none ∧
    ∃ slim, build_slim_document (sampleFile "text/plain") = .ok (some slim) ∧
      slim.perm_sync_data.owner_email = none :=
  ⟨by decide, by decide, rfl,
    build_slim_document_no_owners (sampleFile "text/plain") (by decide) (by decide) rfl⟩

/-- Claim C10: for a non-folder, non-shortcut file whose owners key is
present but holds the empty list, the slim projection raises IndexError;
the null-owner default only applies when the key is absent (a present,
non-empty list contributes its first owner's email). -/
theorem build_slim_document_empty_owners_raises (file : DriveFile)
    (hf : file.mimeType ≠ DRIVE_FOLDER_TYPE)
    (hs : file.mimeType ≠ DRIVE_SHORTCUT_TYPE) :
    (file.owners = some [] → build_slim_document file = .error Exn.indexError) ∧
    (∀ firstOwner rest, file.owners = some (firstOwner :: rest) →
      ∃ slim, build_slim_document file = .ok (some slim) ∧
        slim.perm_sync_data.owner_email = firstOwner.emailAddress) := by
  constructor
  · intro ho
    unfold build_slim_document
    rw [if_neg (not_or.mpr ⟨hf, hs⟩), ho]
    rfl
  · intro firstOwner rest ho
    unfold build_slim_document
    rw [if_neg (not_or.mpr ⟨hf, hs⟩), ho]
    exact ⟨_, rfl, rfl⟩

/-- A file whose owners key is present and empty. -/
def emptyOwnersFile : DriveFile :=
  { sampleFile "text/plain" with owners := some [] }

/-- Witness for C10: the empty owners list raises IndexError. -/
theorem build_slim_document_empty_owners_raises_witness :
    emptyOwnersFile.mimeType ≠ DRIVE_FOLDER_TYPE ∧
    emptyOwnersFile.mimeType ≠ DRIVE_SHORTCUT_TYPE ∧
    emptyOwnersFile.owners = some [] ∧
    build_slim_document emptyOwnersFile = .error Exn.indexError :=
  ⟨by decide, by decide, rfl,
    (build_slim_document_empty_owners_raises emptyOwnersFile (by decide) (by decide)).1 rfl⟩

/-- The section (if any) contributed by one sheet of the loop: the fetched
values when the fetch returns, none when the values are empty or when the
fetch raises. -/
def sheetSectionOf (svc : GoogleDriveService) (fileId link : String) (sheet : Sheet) :
    Option Section :=
  match svc.getValues fileId (sheetRange sheet) with
  | .ok result =>
    let values := result.values.getD []
    if values.isEmpty then none else some (sheetSection link sheet values)
  | .error _ => none

/-- A per-sheet fetch outcome the loop survives: a normal return or an
HttpError (anything else escapes the loop). -/
def fetchBenign (r : Except Exn ValuesResult) : Bool :=
  match r with
  | .ok _ => true
  | .error e => e.isHttpError

/-- When every per-sheet fetch either returns or raises HttpError, the loop
returns exactly the sections of the qualifying sheets, in sheet order. -/
theorem sheetsLoop_filterMap (svc : GoogleDriveService) (fileId link : String) :
    ∀ sheets : List Sheet,
      (∀ sheet ∈ sheets, fetchBenign (svc.getValues fileId (sheetRange sheet))) →
      sheetsLoop svc fileId link sheets =
        .ok (sheets.filterMap (sheetSectionOf svc fileId link)) := by
  intro sheets
  induction sheets with
  | nil => intro _; rfl
  | cons sheet rest ih =>
    intro h
    have hrest : ∀ s ∈ rest, fetchBenign (svc.getValues fileId (sheetRange s)) :=
      fun s hs => h s (List.mem_cons_of_mem sheet hs)
    have hsheet := h sheet (List.mem_cons_self sheet rest)
    rw [List.filterMap_cons, sheetsLoop]
    cases hv : svc.getValues fileId (sheetRange sheet) with
    | ok result =>
      by_cases hempty : (result.values.getD []).isEmpty
      · simp [sheetSectionOf, hv, hempty, ih hrest]
      · simp [sheetSectionOf, hv, hempty, ih hrest]
    | error e =>
      have hhttp : e.isHttpError := by
        rw [hv] at hsheet
        exact hsheet
      simp only [sheetSectionOf, hv, hhttp, if_true]
      exact ih hrest

/-- Claim C4: when the spreadsheet metadata call succeeds and every
per-sheet fetch either returns or raises HttpError, the result is exactly
one section per sheet whose fetch succeeds with non-empty values, in sheet
order; each such section's text starts with the header line and its link
carries the sheet-anchor fragment; an empty sheet contributes no section
and a per-sheet HttpError skips only that sheet. -/
theorem spreadsheet_per_sheet_sections (file : DriveFile) (svc : GoogleDriveService)
    (lib : Lib) (spreadsheet : Spreadsheet)
    (hmime : file.mimeType = GDriveMimeType.SPREADSHEET)
    (hmeta : svc.getSpreadsheet file.id = .ok spreadsheet)
    (hbenign : ∀ sheet ∈ spreadsheet.sheets,
      fetchBenign (svc.getValues file.id (sheetRange sheet))) :
    extract_sections_basic file svc lib =
      .ok (spreadsheet.sheets.filterMap
        (sheetSectionOf svc file.id file.webViewLink)) ∧
    (∀ sheet sec, sheetSectionOf svc file.id file.webViewLink sheet = some sec →
      (∃ rest, sec.text = "Sheet: " ++ sheet.properties.title ++ "\n" ++ rest) ∧
      sec.link = file.webViewLink ++ "#gid=" ++ toString sheet.properties.sheetId) ∧
    (∀ sheet result, svc.getValues file.id (sheetRange sheet) = .ok result →
      result.values.getD [] = [] →
      sheetSectionOf svc file.id file.webViewLink sheet = none) ∧
    (∀ sheet e, svc.getValues file.id (sheetRange sheet) = .error e →
      sheetSectionOf svc file.id file.webViewLink sheet = none) := by
  refine ⟨?_, ?_, ?_, ?_⟩
  · have hsupp : supportedMimeTypes.contains file.mimeType = true := by
      rw [hmime]; decide
    have hloop := sheetsLoop_filterMap svc file.id file.webViewLink
      spreadsheet.sheets hbenign
    unfold extract_sections_basic extractAttempt sheetsAttempt
    rw [if_neg (not_not_intro hsupp), if_pos hmime, hmeta]
    simp only [hloop]
  · intro sheet sec hsec
    unfold sheetSectionOf at hsec
    split at hsec
    · simp only [] at hsec
      split at hsec
      · exact absurd hsec (by simp)
      · have hsec2 : sheetSection file.webViewLink sheet _ = sec :=
          Option.some_injective _ hsec
        subst hsec2
        exact ⟨⟨_, rfl⟩, rfl⟩
    · exact absurd hsec (by simp)
  · intro sheet result hv hempty
    unfold sheetSectionOf
    rw [hv]
    simp [hempty]
  · intro sheet e hv
    unfold sheetSectionOf
    rw [hv]

/-- A three-sheet spreadsheet service: sheet Alpha has values, sheet Beta
has none, and sheet Gamma's fetch raises an HttpError. -/
def threeSheetService : GoogleDriveService :=
  { getSpreadsheet := fun _ =>
      .ok { sheets := [
        { properties := { title := "Alpha", sheetId := 0, gridProperties := none } },
        { properties := { title := "Beta", sheetId := 1, gridProperties := none } },
        { properties := { title := "Gamma", sheetId := 2, gridProperties := none } }] },
    getValues := fun _ range =>
      if range = "\x27Alpha\x27!A1:Z1000" then .ok { values := some [["a", "b"], ["c"]] }
      else if range = "\x27Beta\x27!A1:Z1000" then .ok { values := none }
      else .error (.httpError 500 "backendError" []),
    getMedia := fun _ => .error (.other "unavailable"),
    exportAs := fun _ _ => .error (.other "unavailable") }

/-- Witness for C4: of the three sheets, only Alpha yields a section; its
text starts with the header line and its link carries the anchor. -/
theorem spreadsheet_per_sheet_sections_witness :
    (sampleFile GDriveMimeType.SPREADSHEET).mimeType = GDriveMimeType.SPREADSHEET ∧
    extract_sections_basic (sampleFile GDriveMimeType.SPREADSHEET) threeSheetService
        sampleLib =
      .ok [{ link := "https://drive.example/view#gid=0",
             text := "Sheet: Alpha\na\tb\nc\n" }] := by
  constructor
  · rfl
  · have h := (spreadsheet_per_sheet_sections (sampleFile GDriveMimeType.SPREADSHEET)
      threeSheetService sampleLib
      { sheets := [
        { properties := { title := "Alpha", sheetId := 0, gridProperties := none } },
        { properties := { title := "Beta", sheetId := 1, gridProperties := none } },
        { properties := { title := "Gamma", sheetId := 2, gridProperties := none } }] }
      rfl rfl (by decide)).1
    rw [h]
    rfl

/-- A service where the spreadsheet metadata call fails, the raw-byte
fetch fails, and only the server-side CSV export succeeds. -/
def csvFallbackService : GoogleDriveService :=
  { getSpreadsheet := fun _ => .error (.other "Sheets API unavailable"),
    getValues := fun _ _ => .error (.other "Sheets API unavailable"),
    getMedia := fun _ => .error (.other "media unavailable"),
    exportAs := fun _ exportMimeType =>
      if exportMimeType = "text/csv" then .ok [97] else .error (.other "bad export") }

/-- Counterexample for C3: when the native spreadsheet metadata call fails,
the result is NOT produced by the binary-spreadsheet (openpyxl) fallback
applied to the raw bytes: on this service the raw-byte fetch itself raises
(so the binary strategy could only yield its Excel error sentinel), yet
extraction succeeds with the text of the server-side CSV export. -/
theorem spreadsheet_metadata_failure_not_binary_fallback :
    csvFallbackService.getSpreadsheet "file-1" = .error (.other "Sheets API unavailable") ∧
    csvFallbackService.getMedia "file-1" = .error (.other "media unavailable") ∧
    extract_sections_basic (sampleFile GDriveMimeType.SPREADSHEET) csvFallbackService
        sampleLib =
      .ok [{ link := "https://drive.example/view", text := "decoded text" }] ∧
    excelBranch (sampleFile GDriveMimeType.SPREADSHEET) csvFallbackService sampleLib =
      .ok [{ link := "https://drive.example/view",
             text := "Error extracting data from Excel file" }] ∧
    ({ link := "https://drive.example/view", text := "decoded text" } : Section) ≠
      { link := "https://drive.example/view", text := "Error extracting data from Excel file" } :=
  ⟨rfl, rfl, rfl, rfl, by decide⟩

/-- Claim C3 (amended): for a native-spreadsheet file whose Sheets
metadata call fails as a whole, extraction does not fail the file and does
not return an empty result: it falls through to the export-based fallback
(strategy 4), the server-side CSV export of the file, and when that export
succeeds and decodes the result is that single section. -/
theorem spreadsheet_metadata_failure_falls_back_to_csv_export (file : DriveFile)
    (svc : GoogleDriveService) (lib : Lib) (e : Exn) (bytes : Bytes) (text : String)
    (hmime : file.mimeType = GDriveMimeType.SPREADSHEET)
    (hmeta : svc.getSpreadsheet file.id = .error e)
    (hexport : svc.exportAs file.id "text/csv" = .ok bytes)
    (hdecode : lib.decodeUtf8 bytes = .ok text) :
    extract_sections_basic file svc lib =
      .ok [{ link := file.webViewLink, text := text }] := by
  have hsupp : supportedMimeTypes.contains file.mimeType = true := by
    rw [hmime]; decide
  have hafter : afterSheetsBlock file svc lib =
      .ok [{ link := file.webViewLink, text := text }] := by
    unfold afterSheetsBlock
    rw [if_pos (Or.inr (Or.inr hmime)), if_neg (not_not_intro hmime)]
    simp [hexport, hdecode]
  unfold extract_sections_basic extractAttempt sheetsAttempt
  rw [if_neg (not_not_intro hsupp), if_pos hmime, hmeta]
  simp only [hafter]

/-- Witness for C3 (amended): the concrete CSV-export fallback service. -/
theorem spreadsheet_metadata_failure_falls_back_to_csv_export_witness :
    (sampleFile GDriveMimeType.SPREADSHEET).mimeType = GDriveMimeType.SPREADSHEET ∧
    csvFallbackService.getSpreadsheet "file-1" = .error (.other "Sheets API unavailable") ∧
    csvFallbackService.exportAs "file-1" "text/csv" = .ok [97] ∧
    sampleLib.decodeUtf8 [97] = .ok "decoded text" ∧
    extract_sections_basic (sampleFile GDriveMimeType.SPREADSHEET) csvFallbackService
        sampleLib =
      .ok [{ link := "https://drive.example/view", text := "decoded text" }] :=
  ⟨rfl, rfl, rfl, rfl,
    spreadsheet_metadata_failure_falls_back_to_csv_export
      (sampleFile GDriveMimeType.SPREADSHEET) csvFallbackService sampleLib
      (.other "Sheets API unavailable") [97] "decoded text" rfl rfl rfl rfl⟩

/-- Any Document the assembler body produces carries a non-empty section
list (the empty case returns none at line 281 before construction). -/
theorem convertBody_some_sections_nonempty (file : DriveFile)
    (driveSvc : GoogleDriveService) (docsSvc : GoogleDocsService) (lib : Lib)
    (doc : Document) (h : convertBody file driveSvc docsSvc lib = .ok (some doc)) :
    doc.sections ≠ [] := by
  unfold convertBody at h
  split at h
  · simp at h
  · split at h
    · simp at h
    · simp only [] at h
      split at h
      · simp at h
      · simp at h
      · next sections heq =>
        split at h
        · simp at h
        next hne =>
          split at h
          · simp at h
          · simp only [Except.ok.injEq, Option.some.injEq] at h
            subst h
            simpa using hne

/-- When the structured path and the generic extractor both yield zero
sections, the assembler body returns none. -/
theorem convertBody_empty_sections_none (file : DriveFile)
    (driveSvc : GoogleDriveService) (docsSvc : GoogleDocsService) (lib : Lib)
    (hgdoc : gdocSections docsSvc file = [])
    (hext : extract_sections_basic file driveSvc lib = .ok []) :
    convertBody file driveSvc docsSvc lib = .ok none := by
  unfold convertBody
  rw [hgdoc, hext]
  split
  · rfl
  · split <;> rfl

/-- Claim C5: the assembler never returns a Document with an empty section
sequence: every Document it returns has at least one section, and a file
for which both the structured Google-Doc path and the generic extractor
yield zero sections resolves to absent. -/
theorem document_never_empty_sections (continueOnFailure : Bool) (file : DriveFile)
    (driveSvc : GoogleDriveService) (docsSvc : GoogleDocsService) (lib : Lib) :
    (∀ doc, convert_drive_item_to_document continueOnFailure file driveSvc docsSvc lib =
      .ok (some doc) → doc.sections ≠ []) ∧
    (gdocSections docsSvc file = [] →
      extract_sections_basic file driveSvc lib = .ok [] →
      convert_drive_item_to_document continueOnFailure file driveSvc docsSvc lib =
        .ok none) := by
  constructor
  · intro doc h
    unfold convert_drive_item_to_document at h
    cases hb : convertBody file driveSvc docsSvc lib with
    | ok r =>
      rw [hb] at h
      simp only [Except.ok.injEq] at h
      subst h
      exact convertBody_some_sections_nonempty file driveSvc docsSvc lib doc hb
    | error e =>
      rw [hb] at h
      cases continueOnFailure <;> simp at h
  · intro hgdoc hext
    unfold convert_drive_item_to_document
    rw [convertBody_empty_sections_none file driveSvc docsSvc lib hgdoc hext]

/-- A service whose metadata call reports a spreadsheet with no sheets at
all, making generic extraction return zero sections. -/
def emptySpreadsheetService : GoogleDriveService :=
  { getSpreadsheet := fun _ => .ok { sheets := [] },
    getValues := fun _ _ => .error (.other "unavailable"),
    getMedia := fun _ => .error (.other "unavailable"),
    exportAs := fun _ _ => .error (.other "unavailable") }

/-- Witness for C5: a sheet-less native spreadsheet extracts zero sections
and the assembler returns absent. -/
theorem document_never_empty_sections_witness :
    gdocSections noopDocsService (sampleFile GDriveMimeType.SPREADSHEET) = [] ∧
    extract_sections_basic (sampleFile GDriveMimeType.SPREADSHEET)
      emptySpreadsheetService sampleLib = .ok [] ∧
    convert_drive_item_to_document true (sampleFile GDriveMimeType.SPREADSHEET)
      emptySpreadsheetService noopDocsService sampleLib = .ok none :=
  ⟨rfl, rfl,
    (document_never_empty_sections true (sampleFile GDriveMimeType.SPREADSHEET)
      emptySpreadsheetService noopDocsService sampleLib).2 rfl rfl⟩

/-- Claim C6: an exception escaping the assembler body propagates to the
caller when the continue-on-connector-failure flag is false, and is
swallowed into an absent result when the flag is true. -/
theorem continue_on_failure_flag_semantics (file : DriveFile)
    (driveSvc : GoogleDriveService) (docsSvc : GoogleDocsService) (lib : Lib)
    (e : Exn) (h : convertBody file driveSvc docsSvc lib = .error e) :
    convert_drive_item_to_document false file driveSvc docsSvc lib = .error e ∧
    convert_drive_item_to_document true file driveSvc docsSvc lib = .ok none := by
  unfold convert_drive_item_to_document
  rw [h]
  exact ⟨rfl, rfl⟩

/-- A service whose raw-byte fetch succeeds (for the plain-text path). -/
def plainTextService : GoogleDriveService :=
  { getSpreadsheet := fun _ => .error (.other "unavailable"),
    getValues := fun _ _ => .error (.other "unavailable"),
    getMedia := fun _ => .ok [104, 105],
    exportAs := fun _ _ => .error (.other "unavailable") }

/-- A library oracle whose timestamp parser raises. -/
def badTimeLib : Lib :=
  { sampleLib with parseIsoToUtc := fun _ => .error (.valueError "Invalid isoformat string") }

/-- Witness for C6: a plain-text file whose extraction succeeds but whose
modified-time parse raises inside the body: with the flag unset the
exception propagates, with it set the result is absent. -/
theorem continue_on_failure_flag_semantics_witness :
    convertBody (sampleFile GDriveMimeType.PLAIN_TEXT) plainTextService noopDocsService
        badTimeLib =
      .error (.valueError "Invalid isoformat string") ∧
    convert_drive_item_to_document false (sampleFile GDriveMimeType.PLAIN_TEXT)
        plainTextService noopDocsService badTimeLib =
      .error (.valueError "Invalid isoformat string") ∧
    convert_drive_item_to_document true (sampleFile GDriveMimeType.PLAIN_TEXT)
        plainTextService noopDocsService badTimeLib =
      .ok none :=
  ⟨rfl,
    (continue_on_failure_flag_semantics (sampleFile GDriveMimeType.PLAIN_TEXT)
      plainTextService noopDocsService badTimeLib
      (.valueError "Invalid isoformat string") rfl).1,
    (continue_on_failure_flag_semantics (sampleFile GDriveMimeType.PLAIN_TEXT)
      plainTextService noopDocsService badTimeLib
      (.valueError "Invalid isoformat string") rfl).2⟩

/-- A service whose every call raises an HttpError with status 403 and the
whitelisted reason cannotExportFile. -/
def benignErrorService : GoogleDriveService :=
  { getSpreadsheet := fun _ => .error (.httpError 403 "cannotExportFile"
      [{ reason := "cannotExportFile",
         message := "This file cannot be exported by the user." }]),
    getValues := fun _ _ => .error (.httpError 403 "cannotExportFile" []),
    getMedia := fun _ => .error (.httpError 403 "cannotDownloadFile" []),
    exportAs := fun _ _ => .error (.httpError 403 "cannotExportFile"
      [{ reason := "cannotExportFile",
         message := "This file cannot be exported by the user." }]) }

/-- Claim C2 evaluated at its failing input: the benign 403 HttpError
raised during generic extraction is caught by the Section Extractor's
catch-all (lines 234-235) before the assembler's HttpError handler (lines
271-280) can see it, so the assembler returns a Document carrying the
sentinel section instead of the absent result the handler, the whitelist
comment and the claim intend. -/
theorem benign_http_error_yields_document_not_none :
    extractAttempt (sampleFile GDriveMimeType.SPREADSHEET) benignErrorService sampleLib =
      .error (.httpError 403 "cannotExportFile"
        [{ reason := "cannotExportFile",
           message := "This file cannot be exported by the user." }]) ∧
    extract_sections_basic (sampleFile GDriveMimeType.SPREADSHEET) benignErrorService
        sampleLib =
      .ok [{ link := "https://drive.example/view", text := UNSUPPORTED_FILE_TYPE_CONTENT }] ∧
    convert_drive_item_to_document true (sampleFile GDriveMimeType.SPREADSHEET)
        benignErrorService noopDocsService sampleLib =
      .ok (some
        { id := "https://drive.example/view",
          sections := [{ link := "https://drive.example/view",
                         text := UNSUPPORTED_FILE_TYPE_CONTENT }],
          source := DocumentSource.google_drive,
          semantic_identifier := "Example",
          doc_updated_at := 1704067200,
          metadata := [],
          additional_info := some "file-1" }) ∧
    convert_drive_item_to_document false (sampleFile GDriveMimeType.SPREADSHEET)
        benignErrorService noopDocsService sampleLib =
      .ok (some
        { id := "https://drive.example/view",
          sections := [{ link := "https://drive.example/view",
                         text := UNSUPPORTED_FILE_TYPE_CONTENT }],
          source := DocumentSource.google_drive,
          semantic_identifier := "Example",
          doc_updated_at := 1704067200,
          metadata := [],
          additional_info := some "file-1" }) :=
  ⟨rfl, rfl, rfl, rfl⟩
